import Mathlib

/-!
Verification of the osde2e end-to-end orchestrator core.

Shallow embedding of the Go sources:
  * pkg/e2e (runGinkgoTests, runTestsInPhase, openPDAlerts, setupRouteMonitors)
  * pkg/common/prow (JobURL)
Pure data flow is translated to Lean functions; external collaborators
(filesystem, cluster provider, PagerDuty, Slack, the Ginkgo runner) are
modelled as explicit inputs recording success or failure, and the calls
the orchestrator makes to them are recorded as events.
-/

/-! ## String helpers mirroring strings.Contains from the Go standard library -/

/-- Checks that the first character list is an initial segment of the second
(Go strings.HasPrefix on rune lists). -/
def startsWith : List Char → List Char → Bool
  | [], _ => true
  | _ :: _, [] => false
  | a :: as, b :: bs => a == b && startsWith as bs

/-- Checks that sub occurs as a contiguous run inside the second list. -/
def subIn (sub : List Char) : List Char → Bool
  | [] => sub.isEmpty
  | c :: rest => startsWith sub (c :: rest) || subIn sub rest

/-- Go strings.Contains (s, sub): sub occurs inside s. -/
def strHasSub (s sub : String) : Bool := subIn sub.data s.data

/-! ## jUnit result model (github.com/joshdk/go-junit as consumed by the code)

junit.Status is a string type with values "passed", "skipped", "failed",
"error"; a test case carries a name, a status, an optional error, a
duration and captured output. -/

inductive JStatus where
  | passed
  | skipped
  | failed
  | error
  deriving DecidableEq, BEq

/-- The string value of a go-junit Status constant. -/
def statusString : JStatus → String
  | .passed => "passed"
  | .skipped => "skipped"
  | .failed => "failed"
  | .error => "error"

structure JTestCase where
  name : String
  status : JStatus
  error : Option String
  durationMicroseconds : Int
  systemOut : String
  systemErr : String
  deriving DecidableEq

structure JSuite where
  tests : List JTestCase
  deriving DecidableEq

/-! ## Test counting (runTestsInPhase, lines 849-861)

For each test case the code computes isSkipped and isFail from the junit
status, increments numTests when the case is not skipped, and increments
numPassingTests when the case is neither failed nor skipped.  Note that a
case with status "error" is neither skipped nor failed, so it increments
both counters. -/

/-- One iteration of the counting loop: acc is (numTests, numPassingTests). -/
def countStep (acc : Nat × Nat) (tc : JTestCase) : Nat × Nat :=
  let isSkipped := tc.status == JStatus.skipped
  let isFail := tc.status == JStatus.failed
  let numTests := if !isSkipped then acc.1 + 1 else acc.1
  let numPassingTests := if !isFail && !isSkipped then acc.2 + 1 else acc.2
  (numTests, numPassingTests)

/-- The double loop over the suites of one junit file, carrying the counters
accumulated from earlier files of the same phase. -/
def countSuites (suites : List JSuite) (acc : Nat × Nat) : Nat × Nat :=
  suites.foldl (fun a s => s.tests.foldl countStep a) acc

/-- All test cases of a list of suites, in order. -/
def flatTests : List JSuite → List JTestCase
  | [] => []
  | s :: rest => s.tests ++ flatTests rest

/-- Predicate for cases that the counting loop adds to the total. -/
def countsTowardTotal (tc : JTestCase) : Bool :=
  !(tc.status == JStatus.skipped)

/-- Predicate for cases that the counting loop adds to the passing count. -/
def countsTowardPassing (tc : JTestCase) : Bool :=
  !(tc.status == JStatus.failed) && !(tc.status == JStatus.skipped)

theorem foldl_countStep (tcs : List JTestCase) (a b : Nat) :
    tcs.foldl countStep (a, b) =
      (a + tcs.countP countsTowardTotal, b + tcs.countP countsTowardPassing) := by
  induction tcs generalizing a b with
  | nil => simp
  | cons tc rest ih =>
    simp only [List.foldl_cons, List.countP_cons]
    rw [show countStep (a, b) tc =
        ((if countsTowardTotal tc then a + 1 else a),
         (if countsTowardPassing tc then b + 1 else b)) from ?_]
    · rw [ih]
      simp only [Prod.mk.injEq]
      constructor <;> (split <;> omega)
    · cases h : tc.status <;>
        simp [countStep, countsTowardTotal, countsTowardPassing, h]

theorem countSuites_eq (suites : List JSuite) (a b : Nat) :
    countSuites suites (a, b) =
      (a + (flatTests suites).countP countsTowardTotal,
       b + (flatTests suites).countP countsTowardPassing) := by
  induction suites generalizing a b with
  | nil => simp [countSuites, flatTests]
  | cons s rest ih =>
    show countSuites rest (s.tests.foldl countStep (a, b)) = _
    rw [foldl_countStep, ih]
    simp [flatTests, List.countP_append]
    omega

theorem countsTowardPassing_le (tcs : List JTestCase) :
    tcs.countP countsTowardPassing ≤ tcs.countP countsTowardTotal := by
  induction tcs with
  | nil => simp
  | cons tc rest ih =>
    simp only [List.countP_cons]
    have : countsTowardPassing tc = true → countsTowardTotal tc = true := by
      cases h : tc.status <;> simp [countsTowardPassing, countsTowardTotal, h]
    split <;> split <;> simp_all <;> omega

/-- A single errored test case used to probe the counting loop. -/
def tcErrCase : JTestCase :=
  { name := "t1", status := JStatus.error, error := some "boom"
    durationMicroseconds := 0, systemOut := "", systemErr := "" }

/-- C1 counterexample: a result set holding exactly one errored test case.
The claim states that errored cases are included in the total count but not
in the passing count, so it predicts totals (1, 0) here; the counting loop
computes (1, 1): the errored case is also counted as passing, because the
loop only tests the skipped and failed statuses. -/
theorem c1_counterexample :
    countSuites [{ tests := [tcErrCase] }] (0, 0) = (1, 1) ∧
      ¬ (countSuites [{ tests := [tcErrCase] }] (0, 0)).2 = 0 := by
  constructor <;> decide

/-- C1 amended: skipped cases are excluded from both counters, failed cases
count toward the total but not the passing count, errored cases count toward
both the total and the passing count, and passingTests is at most
totalTests. -/
theorem c1_amended (suites : List JSuite) :
    countSuites suites (0, 0) =
      ((flatTests suites).countP countsTowardTotal,
       (flatTests suites).countP countsTowardPassing) ∧
    (countSuites suites (0, 0)).2 ≤ (countSuites suites (0, 0)).1 := by
  have h := countSuites_eq suites 0 0
  simp only [Nat.zero_add] at h
  exact ⟨h, by rw [h]; exact countsTowardPassing_le _⟩

/-! ## PagerDuty alert consolidation (openPDAlerts, lines 571-634)

The function collects the names of failed test cases from the ingested
suites, exits immediately for addon jobs, fires one ungrouped bulk incident
(and, when the incident was created, one Slack message) when more than 10
names were collected, and otherwise fires one incident per collected name
that does not contain the substring "informing", with summary
name ++ " failed" and group equal to the name.  The jobDetails map the code
assembles from viper configuration is taken as an input here; the alerting
and Slack collaborators are modelled by recording the fired incidents and
the number of Slack messages, with fireOk saying whether FireAlert on the
bulk incident succeeded. -/

/-- ASCII lowercasing of one character (Go strings.ToLower restricted to the
ASCII range, which covers the job names the addon check is applied to). -/
def lowerChar (c : Char) : Char :=
  if 65 ≤ c.toNat ∧ c.toNat ≤ 90 then Char.ofNat (c.toNat + 32) else c

/-- ASCII lowercasing of a string. -/
def lowerStr (s : String) : String := ⟨s.data.map lowerChar⟩

structure PDIncident where
  summary : String
  severity : String
  source : String
  group : String
  details : List (String × String)
  deriving DecidableEq

structure PDOutcome where
  incidents : List PDIncident
  slackMessages : Nat
  deriving DecidableEq

/-- The help text appended to the details of the bulk incident. -/
def bulkHelpText : String :=
  "This is likely a more complex problem, like a test harness or infrastructure issue. The test harness will attempt to notify #sd-cicd"

/-- The nested loop of openPDAlerts collecting the names of failed cases. -/
def collectFailingTests (suites : List JSuite) : List String :=
  suites.foldl
    (fun acc s =>
      acc ++ (s.tests.filter (fun tc => tc.status == JStatus.failed)).map JTestCase.name)
    []

def openPDAlerts (suites : List JSuite) (jobName : String)
    (jobDetails : List (String × String)) (fireOk : Bool) : PDOutcome :=
  if strHasSub (lowerStr jobName) "addon" then
    { incidents := [], slackMessages := 0 }
  else
    let failingTests := collectFailingTests suites
    if 10 < failingTests.length then
      { incidents :=
          [{ summary := "A lot of tests failed together", severity := "info"
             source := jobName, group := ""
             details := jobDetails ++ [("help", bulkHelpText)] }]
        slackMessages := if fireOk then 1 else 0 }
    else
      { incidents :=
          (failingTests.filter (fun n => !(strHasSub n "informing"))).map
            (fun n =>
              { summary := n ++ " failed", severity := "info"
                source := jobName, group := n, details := jobDetails })
        slackMessages := 0 }

/-- A failed test case with the given name. -/
def mkFailTC (name : String) : JTestCase :=
  { name := name, status := JStatus.failed, error := none
    durationMicroseconds := 0, systemOut := "", systemErr := "" }

/-- A suite whose tests all failed, with the given names. -/
def mkFailSuite (names : List String) : JSuite :=
  { tests := names.map mkFailTC }

/-- Eleven distinct failing names, one of which contains "informing". -/
def names11 : List String :=
  ["informing-suite-test", "t01", "t02", "t03", "t04", "t05",
   "t06", "t07", "t08", "t09", "t10"]

/-- The same batch with the informing name removed. -/
def names10 : List String :=
  ["t01", "t02", "t03", "t04", "t05", "t06", "t07", "t08", "t09", "t10"]

/-- Three distinct failing names of which one contains "informing". -/
def names3 : List String := ["informing-suite-test", "t01", "t02"]

/-- C3 counterexample: with 11 failing names of which one contains
"informing", the bulk branch is taken (exactly one incident), while with
the informing name removed the 10 remaining names produce 10 per-test
incidents.  The informing name therefore does contribute to the escalation
decision, contrary to the claim that it is excluded entirely. -/
theorem c3_counterexample :
    (openPDAlerts [mkFailSuite names11] "osde2e-job" [] true).incidents.length = 1 ∧
    (openPDAlerts [mkFailSuite names10] "osde2e-job" [] true).incidents.length = 10 := by
  constructor <;> rfl

/-- C3 amended: a failing test whose name contains "informing" never
receives a per-test incident (no fired incident is grouped by such a name,
and with 3 distinct failing names of which one contains "informing" exactly
2 incidents are fired), but informing names still count toward the
bulk-suppression threshold decision. -/
theorem c3_amended (suites : List JSuite) (jobName : String)
    (jobDetails : List (String × String)) (fireOk : Bool)
    (hAddon : strHasSub (lowerStr jobName) "addon" = false) :
    (∀ n, strHasSub n "informing" = true →
      n ∉ (openPDAlerts suites jobName jobDetails fireOk).incidents.map PDIncident.group ∨
      10 < (collectFailingTests suites).length) ∧
    (openPDAlerts [mkFailSuite names3] "osde2e-job" [] true).incidents.length = 2 := by
  refine ⟨fun n hn => ?_, by rfl⟩
  by_cases hlen : 10 < (collectFailingTests suites).length
  · exact Or.inr hlen
  · refine Or.inl ?_
    simp only [openPDAlerts, hAddon, Bool.false_eq_true, if_false, hlen, if_neg hlen]
    simp only [List.map_map, List.mem_map, Function.comp]
    rintro ⟨m, hm, rfl⟩
    have := List.of_mem_filter hm
    simp [hn] at this

/-- C4 counterexample: with a single failing test named t1 (at most 10
failures, none informing), the fired incident is grouped by the test name
but its summary is the test name followed by " failed", not the test name
itself as the claim states. -/
theorem c4_counterexample :
    (openPDAlerts [mkFailSuite ["t1"]] "osde2e-job" [] true).incidents.map
        PDIncident.summary = ["t1 failed"] ∧
    (openPDAlerts [mkFailSuite ["t1"]] "osde2e-job" [] true).incidents.map
        PDIncident.group = ["t1"] ∧
    ("t1 failed" : String) ≠ "t1" := by
  refine ⟨by rfl, by rfl, by decide⟩

/-- C4 amended: for a non-addon job, when more than 10 failing names were
collected exactly one incident is fired, ungrouped, summarizing that many
tests failed together, plus (when the incident was created) one Slack
notification and no per-test incidents; when at most 10 names were
collected, one incident is fired per collected non-informing name, grouped
by the test name with summary equal to the test name followed by
" failed", and no Slack notification is sent. -/
theorem c4_amended (suites : List JSuite) (jobName : String)
    (jobDetails : List (String × String)) (fireOk : Bool)
    (hAddon : strHasSub (lowerStr jobName) "addon" = false) :
    (10 < (collectFailingTests suites).length →
      (openPDAlerts suites jobName jobDetails fireOk).incidents.length = 1 ∧
      (∀ inc ∈ (openPDAlerts suites jobName jobDetails fireOk).incidents,
        inc.group = "" ∧ inc.summary = "A lot of tests failed together") ∧
      (fireOk = true →
        (openPDAlerts suites jobName jobDetails fireOk).slackMessages = 1)) ∧
    ((collectFailingTests suites).length ≤ 10 →
      (openPDAlerts suites jobName jobDetails fireOk).incidents.map
          PDIncident.group =
        (collectFailingTests suites).filter (fun n => !(strHasSub n "informing")) ∧
      (∀ inc ∈ (openPDAlerts suites jobName jobDetails fireOk).incidents,
        inc.summary = inc.group ++ " failed") ∧
      (openPDAlerts suites jobName jobDetails fireOk).slackMessages = 0) := by
  constructor
  · intro hlen
    simp only [openPDAlerts, hAddon, Bool.false_eq_true, if_false, if_pos hlen]
    refine ⟨rfl, ?_, ?_⟩
    · intro inc hinc
      simp only [List.mem_singleton] at hinc
      subst hinc
      exact ⟨rfl, rfl⟩
    · intro hf
      simp [hf]
  · intro hlen
    have hnot : ¬ 10 < (collectFailingTests suites).length := by omega
    simp only [openPDAlerts, hAddon, Bool.false_eq_true, if_false, if_neg hnot]
    refine ⟨?_, ?_, ?_⟩
    · rw [List.map_map]
      show List.map id _ = _
      exact List.map_id _
    · intro inc hinc
      simp only [List.mem_map] at hinc
      obtain ⟨n, _, rfl⟩ := hinc
      rfl
    · trivial

/-! ## Persisted test case records (runTestsInPhase, lines 871-903)

Each ingested test case is turned into a db.CreateTestcaseParams value.
The Result field switches on the status string; note the switch lists the
case "failure" although go-junit failed cases carry the status string
"failed", so failed cases fall to the default branch.  The Error field is
produced by a closure that tests test.Error but then dereferences the
enclosing err variable, namely the error returned by junit.IngestFile for
the current file, which is necessarily nil at that point (a non-nil parse
error returns from the function before any record is built); dereferencing
the nil err is a run-time nil-pointer panic, modelled as Except.error. -/

inductive TestResult where
  | passed
  | failure
  | skipped
  | error
  deriving DecidableEq

/-- The switch mapping a junit status string to a db result. -/
def toDbResult (s : String) : TestResult :=
  if s = "passed" then .passed
  else if s = "failure" then .failure
  else if s = "skipped" then .skipped
  else .error

/-- The Error closure of the record builder: it tests the test cases own
error for nil, but reads the message from the enclosing (stale) err
variable; a nil stale err is a nil dereference panic. -/
def testErrorField (staleErr : Option String) (ownErr : Option String) :
    Except Unit String :=
  if ownErr.isSome then
    match staleErr with
    | some m => Except.ok m
    | none => Except.error ()
  else Except.ok ""

structure TestcaseParams where
  result : TestResult
  name : String
  durationMicroseconds : Int
  errorText : Except Unit String
  stdout : String
  stderr : String

/-- Builds the db record for one test case, given the value of the stale
enclosing err variable captured by the Error closure. -/
def buildRecord (staleErr : Option String) (tc : JTestCase) : TestcaseParams :=
  { result := toDbResult (statusString tc.status)
    name := tc.name
    durationMicroseconds := tc.durationMicroseconds
    errorText := testErrorField staleErr tc.error
    stdout := tc.systemOut
    stderr := tc.systemErr }

/-- C8: whenever a test cases own error is non-nil, the persisted error
text is computed from the stale enclosing err variable alone: the message
stored is the stale variables message (or a nil dereference when the stale
err is nil), and the test cases own error message never appears in the
result, which does not depend on it. -/
theorem c8_stale_error (staleErr : Option String) (tc : JTestCase) (e : String)
    (h : tc.error = some e) :
    (buildRecord staleErr tc).errorText =
      (match staleErr with
       | some m => Except.ok m
       | none => Except.error ()) := by
  simp [buildRecord, testErrorField, h]

/-- C8 witness: a concrete test case whose own error message is boom, built
while the stale err variable holds a prior parse error message; the stored
error text is the stale message, not boom. -/
theorem c8_stale_error_witness :
    (buildRecord (some "stale parse error") tcErrCase).errorText =
      Except.ok "stale parse error" :=
  c8_stale_error (some "stale parse error") tcErrCase "boom" rfl

/-- C3 amended witness: the 3-name batch with one informing name fires
exactly 2 incidents and none is grouped by the informing name. -/
theorem c3_amended_witness :
    ("informing-suite-test" ∉
        (openPDAlerts [mkFailSuite names3] "osde2e-job" [] true).incidents.map
          PDIncident.group ∨
      10 < (collectFailingTests [mkFailSuite names3]).length) ∧
    (openPDAlerts [mkFailSuite names3] "osde2e-job" [] true).incidents.length = 2 :=
  ⟨(c3_amended [mkFailSuite names3] "osde2e-job" [] true rfl).1
      "informing-suite-test" rfl,
   (c3_amended [mkFailSuite names3] "osde2e-job" [] true rfl).2⟩

/-- C4 amended witness: the 11-name batch fires exactly one incident and
one Slack message. -/
theorem c4_amended_witness :
    (openPDAlerts [mkFailSuite names11] "osde2e-job" [] true).incidents.length = 1 ∧
    (openPDAlerts [mkFailSuite names11] "osde2e-job" [] true).slackMessages = 1 := by
  have h := c4_amended [mkFailSuite names11] "osde2e-job" [] true rfl
  have hlen : 10 < (collectFailingTests [mkFailSuite names11]).length := by decide
  exact ⟨(h.1 hlen).1, (h.1 hlen).2.2 rfl⟩

/-! ## Phase orchestration (runTestsInPhase, lines 800-1053)

The function ensures the per-phase directory exists, acquires the cluster
through beforeSuite unless both dry-run flags are set, runs the Ginkgo
suite, folds every junit file of the phase directory into counters and db
records, records the phase pass rate unless it is NaN, resets the log and
before-suite metric counters, scans the report-directory log files
incrementing the counters, writes the two metric junit files and inspects
the cluster state.  External effects are modelled through PhaseDeps; every
early return of the function yields passed false together with the records
accumulated so far. -/

structure MetricCfg where
  name : String
  hasMatches : List Char → Nat

/-- Modelled from the spec: metadata counters (pkg/common/metadata is not
under src).  Named counters tracking how many times a configured pattern
matched in captured logs, reset to zero at the start of every phase. -/
structure Metadata where
  logMetrics : List (String × Nat)
  beforeSuiteMetrics : List (String × Nat)

/-- Modelled from the spec: ResetLogMetrics zeroes every log-metric
counter. -/
def Metadata.resetLogMetrics (st : Metadata) : Metadata :=
  { st with logMetrics := [] }

/-- Modelled from the spec: ResetBeforeSuiteMetrics zeroes every
before-suite-metric counter. -/
def Metadata.resetBeforeSuiteMetrics (st : Metadata) : Metadata :=
  { st with beforeSuiteMetrics := [] }

/-- Adds n to the named counter of an association list, creating it at n
when absent. -/
def bumpCounter : List (String × Nat) → String → Nat → List (String × Nat)
  | [], name, n => [(name, n)]
  | (k, v) :: rest, name, n =>
      if k == name then (k, v + n) :: rest else (k, v) :: bumpCounter rest name n

/-- Reads the named counter, zero when absent. -/
def lookupCounter : List (String × Nat) → String → Nat
  | [], _ => 0
  | (k, v) :: rest, name => if k == name then v else lookupCounter rest name

/-- Modelled from the spec: IncrementLogMetric adds the match count to the
named counter. -/
def Metadata.incrementLogMetric (st : Metadata) (name : String) (n : Nat) :
    Metadata :=
  { st with logMetrics := bumpCounter st.logMetrics name n }

/-- Modelled from the spec: IncrementBeforeSuiteMetric adds the match count
to the named counter. -/
def Metadata.incrementBeforeSuiteMetric (st : Metadata) (name : String)
    (n : Nat) : Metadata :=
  { st with beforeSuiteMetrics := bumpCounter st.beforeSuiteMetrics name n }

/-- Outcome of the Go float64 division of the two counters: both are
nonnegative integers, so the quotient is NaN exactly for 0 over 0 and
positive infinity for a positive numerator over 0. -/
inductive GoFloat where
  | nan
  | posInf
  | val (num den : Nat)
  deriving DecidableEq

def goDivCounts (p t : Nat) : GoFloat :=
  if t = 0 then (if p = 0 then .nan else .posInf) else .val p t

/-- The pass rate step at lines 915-921: a NaN rate is only logged, any
other value is recorded through metadata.Instance.SetPassRate. -/
def recordRate (p t : Nat) : Option GoFloat :=
  match goDivCounts p t with
  | .nan => none
  | g => some g

/-- One file of the phase directory: whether its name matches
junitFileRegex, and the result of junit.IngestFile on it (none is a parse
error). -/
structure PhaseFile where
  isJunit : Bool
  parse : Option (List JSuite)

/-- The loop over the phase directory (lines 839-906): every junit file is
counted into the accumulated totals and its cases appended to the record
list; a parse failure returns immediately with the records collected so
far.  Records are built with a nil stale err: on the path that builds
records, the enclosing err variable holds the nil error of the successful
IngestFile call for the current file. -/
def processFiles :
    List PhaseFile → Nat × Nat → List TestcaseParams →
      Bool × (Nat × Nat) × List TestcaseParams
  | [], acc, data => (true, acc, data)
  | f :: rest, acc, data =>
    if f.isJunit then
      match f.parse with
      | none => (false, acc, data)
      | some suites =>
          processFiles rest (countSuites suites acc)
            (data ++ suites.foldl (fun l s => l ++ s.tests.map (buildRecord none)) [])
    else processFiles rest acc data

/-- One file of the report directory: whether its name matches logFileRegex
and the result of reading it. -/
structure ReportFile where
  isLog : Bool
  readData : Option (List Char)

/-- The metric counting pass (lines 935-949): for every log file, each
configured log metric and before-suite metric is incremented by its match
count; a read failure aborts the pass. -/
def scanReportFiles (lms bsms : List MetricCfg) :
    List ReportFile → Metadata → Option Metadata
  | [], st => some st
  | f :: rest, st =>
    if f.isLog then
      match f.readData with
      | none => none
      | some data =>
          scanReportFiles lms bsms rest
            (bsms.foldl
              (fun s m => s.incrementBeforeSuiteMetric m.name (m.hasMatches data))
              (lms.foldl
                (fun s m => s.incrementLogMetric m.name (m.hasMatches data)) st))
    else scanReportFiles lms bsms rest st

/-- The collaborator outcomes runTestsInPhase depends on, in the order the
function consults them. -/
structure PhaseDeps where
  phaseDirMissing : Bool
  mkdirFails : Bool
  dryrun : Bool
  ginkgoDryRun : Bool
  beforeSuiteOk : Bool
  ginkgoPassed : Bool
  readPhaseDirFails : Bool
  phaseFiles : List PhaseFile
  readReportDirFails : Bool
  reportFiles : List ReportFile
  logMetricCfgs : List MetricCfg
  beforeSuiteMetricCfgs : List MetricCfg
  writeLogMetricsFileFails : Bool
  writeBeforeSuiteFileFails : Bool
  clusterID : String
  getClusterFails : Bool

/-- Observable outcome of one runTestsInPhase call: its return value, which
collaborators were invoked, the counters of the phase, the recorded pass
rate, and the metadata counter state at the start of the metric counting
pass. -/
structure PhaseOutcome where
  passed : Bool
  testCaseData : List TestcaseParams
  invokedBeforeSuite : Bool
  invokedRunSpecs : Bool
  counts : Option (Nat × Nat)
  recordedPassRate : Option GoFloat
  scanStart : Option Metadata

/-- Shallow embedding of runTestsInPhase (lines 800-1053) over the
collaborator outcomes d, with st the metadata counter state left by any
earlier phase of the same run. -/
def runTestsInPhaseModel (d : PhaseDeps) (st : Metadata) : PhaseOutcome :=
  if d.phaseDirMissing && d.mkdirFails then
    { passed := false, testCaseData := [], invokedBeforeSuite := false
      invokedRunSpecs := false, counts := none, recordedPassRate := none
      scanStart := none }
  else if (!d.dryrun || !d.ginkgoDryRun) && !d.beforeSuiteOk then
    { passed := false, testCaseData := [], invokedBeforeSuite := true
      invokedRunSpecs := false, counts := none, recordedPassRate := none
      scanStart := none }
  else if d.readPhaseDirFails then
    { passed := false, testCaseData := [], invokedBeforeSuite := !d.dryrun || !d.ginkgoDryRun
      invokedRunSpecs := true, counts := none, recordedPassRate := none
      scanStart := none }
  else
    match processFiles d.phaseFiles (0, 0) [] with
    | (false, _, data) =>
      { passed := false, testCaseData := data
        invokedBeforeSuite := !d.dryrun || !d.ginkgoDryRun
        invokedRunSpecs := true, counts := none, recordedPassRate := none
        scanStart := none }
    | (true, (numTests, numPassingTests), data) =>
      if d.readReportDirFails then
        { passed := false, testCaseData := data
          invokedBeforeSuite := !d.dryrun || !d.ginkgoDryRun
          invokedRunSpecs := true, counts := some (numTests, numPassingTests)
          recordedPassRate := recordRate numPassingTests numTests
          scanStart := none }
      else
        match scanReportFiles d.logMetricCfgs d.beforeSuiteMetricCfgs
            d.reportFiles ((st.resetLogMetrics).resetBeforeSuiteMetrics) with
        | none =>
          { passed := false, testCaseData := data
            invokedBeforeSuite := !d.dryrun || !d.ginkgoDryRun
            invokedRunSpecs := true, counts := some (numTests, numPassingTests)
            recordedPassRate := recordRate numPassingTests numTests
            scanStart := some ((st.resetLogMetrics).resetBeforeSuiteMetrics) }
        | some _ =>
          if d.writeLogMetricsFileFails || d.writeBeforeSuiteFileFails ||
              (d.clusterID != "" && d.getClusterFails) then
            { passed := false, testCaseData := data
              invokedBeforeSuite := !d.dryrun || !d.ginkgoDryRun
              invokedRunSpecs := true, counts := some (numTests, numPassingTests)
              recordedPassRate := recordRate numPassingTests numTests
              scanStart := some ((st.resetLogMetrics).resetBeforeSuiteMetrics) }
          else
            { passed := d.ginkgoPassed, testCaseData := data
              invokedBeforeSuite := !d.dryrun || !d.ginkgoDryRun
              invokedRunSpecs := true, counts := some (numTests, numPassingTests)
              recordedPassRate := recordRate numPassingTests numTests
              scanStart := some ((st.resetLogMetrics).resetBeforeSuiteMetrics) }

/-- C6: if the phase directory is available and cluster acquisition through
beforeSuite is attempted and fails, runTestsInPhase returns passed false
with an empty record list and never invokes the Ginkgo spec runner. -/
theorem c6_beforeSuite_fail (d : PhaseDeps) (st : Metadata)
    (hdir : (d.phaseDirMissing && d.mkdirFails) = false)
    (hgate : (!d.dryrun || !d.ginkgoDryRun) = true)
    (hbs : d.beforeSuiteOk = false) :
    (runTestsInPhaseModel d st).passed = false ∧
    (runTestsInPhaseModel d st).testCaseData = [] ∧
    (runTestsInPhaseModel d st).invokedRunSpecs = false := by
  simp [runTestsInPhaseModel, hdir, hgate, hbs]

/-- Collaborator outcomes where beforeSuite fails and everything else is
benign. -/
def phaseDeps0 : PhaseDeps :=
  { phaseDirMissing := false, mkdirFails := false, dryrun := false
    ginkgoDryRun := false, beforeSuiteOk := false, ginkgoPassed := false
    readPhaseDirFails := false, phaseFiles := [], readReportDirFails := false
    reportFiles := [], logMetricCfgs := [], beforeSuiteMetricCfgs := []
    writeLogMetricsFileFails := false, writeBeforeSuiteFileFails := false
    clusterID := "", getClusterFails := false }

/-- The empty metadata counter state. -/
def metaZero : Metadata := { logMetrics := [], beforeSuiteMetrics := [] }

/-- C6 witness: concrete run with failing cluster acquisition. -/
theorem c6_beforeSuite_fail_witness :
    (runTestsInPhaseModel phaseDeps0 metaZero).passed = false ∧
    (runTestsInPhaseModel phaseDeps0 metaZero).testCaseData = [] ∧
    (runTestsInPhaseModel phaseDeps0 metaZero).invokedRunSpecs = false :=
  c6_beforeSuite_fail phaseDeps0 metaZero rfl rfl rfl

theorem countSuites_le (suites : List JSuite) (a b : Nat) (h : b ≤ a) :
    (countSuites suites (a, b)).2 ≤ (countSuites suites (a, b)).1 := by
  rw [countSuites_eq]
  have := countsTowardPassing_le (flatTests suites)
  simp only []
  omega

theorem processFiles_le (fs : List PhaseFile) (acc : Nat × Nat)
    (data : List TestcaseParams) (h : acc.2 ≤ acc.1) :
    ((processFiles fs acc data).2.1).2 ≤ ((processFiles fs acc data).2.1).1 := by
  induction fs generalizing acc data with
  | nil => simpa [processFiles] using h
  | cons f rest ih =>
    by_cases hj : f.isJunit = true
    · cases hp : f.parse with
      | none => simpa [processFiles, hj, hp] using h
      | some suites =>
        simp only [processFiles, hj, hp, if_true]
        apply ih
        obtain ⟨a, b⟩ := acc
        exact countSuites_le suites a b h
    · simp only [processFiles, hj, Bool.false_eq_true, if_false]
      exact ih acc data h

/-- Shape of the outcome of a phase run: whenever counters were computed the
recorded pass rate is the guarded division of those counters with the
passing counter at most the total, and whenever the metric counting pass
was reached its starting metadata is the fully reset state. -/
theorem model_shape (d : PhaseDeps) (st : Metadata) :
    ((runTestsInPhaseModel d st).counts = none ∨
     ∃ nt np, (runTestsInPhaseModel d st).counts = some (nt, np) ∧
       (runTestsInPhaseModel d st).recordedPassRate = recordRate np nt ∧
       np ≤ nt) ∧
    ((runTestsInPhaseModel d st).scanStart = none ∨
     (runTestsInPhaseModel d st).scanStart = some metaZero) := by
  unfold runTestsInPhaseModel
  split
  · exact ⟨Or.inl rfl, Or.inl rfl⟩
  · split
    · exact ⟨Or.inl rfl, Or.inl rfl⟩
    · split
      · exact ⟨Or.inl rfl, Or.inl rfl⟩
      · rcases h1 : processFiles d.phaseFiles (0, 0) [] with ⟨ok, ⟨nt, np⟩, data⟩
        have hle : np ≤ nt := by
          have h2 := processFiles_le d.phaseFiles (0, 0) [] (Nat.le_refl 0)
          rw [h1] at h2
          exact h2
        have hreset : (st.resetLogMetrics).resetBeforeSuiteMetrics = metaZero := rfl
        cases ok
        · simp only [h1]
          exact ⟨Or.inl trivial, Or.inl trivial⟩
        · simp only [h1]
          split
          · exact ⟨Or.inr ⟨nt, np, rfl, rfl, hle⟩, Or.inl rfl⟩
          · split
            · exact ⟨Or.inr ⟨nt, np, rfl, rfl, hle⟩, Or.inr (by rw [hreset])⟩
            · split
              · exact ⟨Or.inr ⟨nt, np, rfl, rfl, hle⟩, Or.inr (by rw [hreset])⟩
              · exact ⟨Or.inr ⟨nt, np, rfl, rfl, hle⟩, Or.inr (by rw [hreset])⟩

/-- C7: a phase whose result files yield zero non-skipped tests has a NaN
pass rate, which is flagged and not recorded: no pass rate value is kept
for the phase. -/
theorem c7_nan_rate (d : PhaseDeps) (st : Metadata) (np : Nat)
    (h : (runTestsInPhaseModel d st).counts = some (0, np)) :
    (runTestsInPhaseModel d st).recordedPassRate = none := by
  rcases (model_shape d st).1 with hnone | ⟨nt0, np0, hc, hr, hle⟩
  · rw [hnone] at h
    cases h
  · rw [hc] at h
    have h2 : (nt0, np0) = (0, np) := Option.some.inj h
    have hnt : nt0 = 0 := congrArg Prod.fst h2
    subst hnt
    have hnp : np0 = 0 := Nat.le_zero.mp hle
    subst hnp
    rw [hr]
    rfl

/-- Collaborator outcomes where everything succeeds but the phase directory
holds no junit results: zero tests are counted. -/
def phaseDeps1 : PhaseDeps :=
  { phaseDirMissing := false, mkdirFails := false, dryrun := false
    ginkgoDryRun := false, beforeSuiteOk := true, ginkgoPassed := true
    readPhaseDirFails := false, phaseFiles := [], readReportDirFails := false
    reportFiles := [], logMetricCfgs := [], beforeSuiteMetricCfgs := []
    writeLogMetricsFileFails := false, writeBeforeSuiteFileFails := false
    clusterID := "", getClusterFails := false }

/-- C7 witness: a phase with no junit files yields counters (0, 0) and no
recorded pass rate. -/
theorem c7_nan_rate_witness :
    (runTestsInPhaseModel phaseDeps1 metaZero).recordedPassRate = none :=
  c7_nan_rate phaseDeps1 metaZero 0 rfl

/-- C9: whenever the metric counting pass of a phase starts, every
log-metric counter and every before-suite-metric counter reads zero, no
matter what counter state st an earlier phase of the run left behind. -/
theorem c9_counters_zero (d : PhaseDeps) (st : Metadata) (m : Metadata)
    (name : String)
    (h : (runTestsInPhaseModel d st).scanStart = some m) :
    lookupCounter m.logMetrics name = 0 ∧
    lookupCounter m.beforeSuiteMetrics name = 0 := by
  rcases (model_shape d st).2 with hn | hs
  · rw [hn] at h
    cases h
  · rw [hs] at h
    have hm : metaZero = m := Option.some.inj h
    rw [← hm]
    exact ⟨rfl, rfl⟩

/-- A metadata state left behind with nonzero counters by an earlier
phase. -/
def metaDirty : Metadata :=
  { logMetrics := [("cluster-install-error", 5)]
    beforeSuiteMetrics := [("before-suite-timeout", 7)] }

/-- C9 witness: a concrete phase started after an earlier phase incremented
the counters still begins its counting pass at zero. -/
theorem c9_counters_zero_witness :
    lookupCounter metaZero.logMetrics "cluster-install-error" = 0 ∧
    lookupCounter metaZero.beforeSuiteMetrics "cluster-install-error" = 0 :=
  c9_counters_zero phaseDeps1 metaDirty metaZero "cluster-install-error" rfl

/-! ## Upgrade sequencing in runGinkgoTests (lines 380-424)

After the install phase, when an upgrade image or release name is
configured and kubeconfig contents are present, the orchestrator optionally
starts the route monitors (when monitoring is requested and the run is not
a dry run), invokes upgrade.RunUpgrade, and on upgrade failure returns
(Failure, error) immediately; on success it runs the post-upgrade phase
unless the managed upgrade was rescheduled, and only then closes the route
monitor channel and waits for the monitors to flush.  The calls are
recorded as an event trace. -/

def Success : Nat := 0

def Failure : Nat := 1

def Aborted : Nat := 130

inductive UEvent where
  | startMonitors
  | runUpgradeOp
  | stopMonitors
  | postUpgradePhase
  deriving DecidableEq

/-- The configuration and collaborator outcomes the upgrade block reads. -/
structure UpgradeCfg where
  upgradeImage : String
  releaseName : String
  kubeconfigContents : String
  monitorRoutesDuringUpgrade : Bool
  dryRun : Bool
  managedUpgradeRescheduled : Bool
  upgradeFails : Bool
  postPhasePassed : Bool
  postPhaseData : List TestcaseParams

/-- Outcome of the upgrade block: the ordered trace of collaborator calls,
the early return code of runGinkgoTests when RunUpgrade failed, and the
post-upgrade phase result variables. -/
structure UpgradeOutcome where
  events : List UEvent
  earlyExit : Option Nat
  upgradeTestsPassed : Bool
  upgradeTestCaseData : List TestcaseParams

/-- Shallow embedding of the upgrade block of runGinkgoTests. -/
def upgradeSection (c : UpgradeCfg) : UpgradeOutcome :=
  if c.upgradeImage != "" || c.releaseName != "" then
    if 0 < c.kubeconfigContents.length then
      let monitorsStarted := c.monitorRoutesDuringUpgrade && !c.dryRun
      let ev0 := if monitorsStarted then [UEvent.startMonitors] else []
      if c.upgradeFails then
        { events := ev0 ++ [UEvent.runUpgradeOp], earlyExit := some Failure
          upgradeTestsPassed := true, upgradeTestCaseData := [] }
      else
        if !c.managedUpgradeRescheduled then
          { events :=
              (ev0 ++ [UEvent.runUpgradeOp, UEvent.postUpgradePhase]) ++
                (if monitorsStarted then [UEvent.stopMonitors] else [])
            earlyExit := none
            upgradeTestsPassed := c.postPhasePassed
            upgradeTestCaseData := c.postPhaseData }
        else
          { events :=
              (ev0 ++ [UEvent.runUpgradeOp]) ++
                (if monitorsStarted then [UEvent.stopMonitors] else [])
            earlyExit := none
            upgradeTestsPassed := true
            upgradeTestCaseData := [] }
    else
      { events := [], earlyExit := none, upgradeTestsPassed := true
        upgradeTestCaseData := [] }
  else
    { events := [], earlyExit := none, upgradeTestsPassed := true
      upgradeTestCaseData := [] }

/-- An upgrade run that requests monitoring, is not a dry run, and whose
upgrade operation fails. -/
def upgradeCfgFail : UpgradeCfg :=
  { upgradeImage := "quay.io/openshift-release-dev/ocp-release:4.10.0"
    releaseName := "", kubeconfigContents := "apiVersion: v1"
    monitorRoutesDuringUpgrade := true, dryRun := false
    managedUpgradeRescheduled := false, upgradeFails := true
    postPhasePassed := true, postPhaseData := [] }

/-- C2 counterexample: monitoring was requested and the monitors were
started, the upgrade operation returned an error, and on that exit path the
stop signal for the route monitors is never sent: the aggregator is not
stopped on every exit path of the upgrade step. -/
theorem c2_counterexample :
    UEvent.startMonitors ∈ (upgradeSection upgradeCfgFail).events ∧
    (upgradeSection upgradeCfgFail).earlyExit = some Failure ∧
    UEvent.stopMonitors ∉ (upgradeSection upgradeCfgFail).events := by
  refine ⟨?_, rfl, ?_⟩ <;> decide

/-- C2 amended: when monitoring was requested and started, the route
monitors are stopped (stop signal sent and flush awaited) on the exit paths
where the upgrade operation succeeds, with the stop happening after the
upgrade; but on the exit path where the upgrade operation returns an error
the function returns without sending the stop signal. -/
theorem c2_amended (c : UpgradeCfg)
    (hcfg : (c.upgradeImage != "" || c.releaseName != "") = true)
    (hk : 0 < c.kubeconfigContents.length)
    (hm : (c.monitorRoutesDuringUpgrade && !c.dryRun) = true) :
    (c.upgradeFails = false →
      UEvent.stopMonitors ∈ (upgradeSection c).events) ∧
    (c.upgradeFails = true →
      UEvent.startMonitors ∈ (upgradeSection c).events ∧
      UEvent.stopMonitors ∉ (upgradeSection c).events) := by
  constructor
  · intro hf
    by_cases hr : c.managedUpgradeRescheduled = true <;>
      simp [upgradeSection, hcfg, hk, hm, hf, hr]
  · intro hf
    simp [upgradeSection, hcfg, hk, hm, hf]

/-- An upgrade run that requests monitoring and whose upgrade operation
succeeds. -/
def upgradeCfgOk : UpgradeCfg :=
  { upgradeImage := "quay.io/openshift-release-dev/ocp-release:4.10.0"
    releaseName := "", kubeconfigContents := "apiVersion: v1"
    monitorRoutesDuringUpgrade := true, dryRun := false
    managedUpgradeRescheduled := false, upgradeFails := false
    postPhasePassed := true, postPhaseData := [] }

/-- C2 amended witness: the successful upgrade stops the monitors and the
failing one does not. -/
theorem c2_amended_witness :
    UEvent.stopMonitors ∈ (upgradeSection upgradeCfgOk).events ∧
    (UEvent.startMonitors ∈ (upgradeSection upgradeCfgFail).events ∧
     UEvent.stopMonitors ∉ (upgradeSection upgradeCfgFail).events) :=
  ⟨(c2_amended upgradeCfgOk rfl (by decide) rfl).1 rfl,
   (c2_amended upgradeCfgFail rfl (by decide) rfl).2 rfl⟩

/-- C5: when an upgrade is configured and kubeconfig contents are present
and the upgrade operation returns an error, runGinkgoTests returns the
Failure exit code (1) immediately: the post-upgrade phase is never
executed, no post-upgrade phase records are produced, and the upgrade
operation is invoked exactly once (never retried). -/
theorem c5_upgrade_fatal (c : UpgradeCfg)
    (hcfg : (c.upgradeImage != "" || c.releaseName != "") = true)
    (hk : 0 < c.kubeconfigContents.length)
    (hf : c.upgradeFails = true) :
    (upgradeSection c).earlyExit = some Failure ∧
    Failure = 1 ∧
    UEvent.postUpgradePhase ∉ (upgradeSection c).events ∧
    (upgradeSection c).upgradeTestCaseData = [] ∧
    (upgradeSection c).events.count UEvent.runUpgradeOp = 1 := by
  by_cases hm : (c.monitorRoutesDuringUpgrade && !c.dryRun) = true <;>
    simp [upgradeSection, hcfg, hk, hf, hm, List.count_cons, List.count_nil] <;>
    rfl

/-- C5 witness: the concrete failing upgrade run exits with code 1 and no
post-upgrade phase result. -/
theorem c5_upgrade_fatal_witness :
    (upgradeSection upgradeCfgFail).earlyExit = some Failure ∧
    Failure = 1 ∧
    UEvent.postUpgradePhase ∉ (upgradeSection upgradeCfgFail).events ∧
    (upgradeSection upgradeCfgFail).upgradeTestCaseData = [] ∧
    (upgradeSection upgradeCfgFail).events.count UEvent.runUpgradeOp = 1 :=
  c5_upgrade_fatal upgradeCfgFail rfl (by decide) rfl

/-! ## Prow job URL inference (pkg/common/prow/prow.go, lines 14-26)

JobURL returns the named zero values ("", false) unless the configured job
type is "periodic" and both BUILD_ID and JOB_NAME are present in the
environment, in which case it formats the Prow view URL from JOB_NAME then
BUILD_ID.  The viper job type and the two environment lookups are the
inputs of the embedding. -/

def JobURL (jobType : String) (buildID jobName : Option String) :
    String × Bool :=
  if jobType != "periodic" then ("", false)
  else
    match buildID with
    | none => ("", false)
    | some jobID =>
      match jobName with
      | none => ("", false)
      | some name =>
        ("https://prow.ci.openshift.org/view/gs/origin-ci-test/logs/" ++
           name ++ "/" ++ jobID, true)

/-- C10: JobURL returns ok exactly when the job type is "periodic" and both
BUILD_ID and JOB_NAME are set; in that case the url is the Prow view URL
built from JOB_NAME then BUILD_ID, and in every other case the result is
the empty string with false. -/
theorem c10_jobURL (jobType : String) (buildID jobName : Option String) :
    ((JobURL jobType buildID jobName).2 = true ↔
      jobType = "periodic" ∧ buildID.isSome ∧ jobName.isSome) ∧
    ((JobURL jobType buildID jobName).2 = false →
      JobURL jobType buildID jobName = ("", false)) ∧
    (∀ jobID name, JobURL "periodic" (some jobID) (some name) =
      ("https://prow.ci.openshift.org/view/gs/origin-ci-test/logs/" ++
         name ++ "/" ++ jobID, true)) := by
  refine ⟨?_, ?_, fun jobID name => by simp [JobURL]⟩ <;>
    (by_cases h : jobType = "periodic" <;>
      cases buildID <;> cases jobName <;>
      simp [JobURL, h])

/-- C10 witness: a periodic job with both environment variables set yields
the Prow view URL and true. -/
theorem c10_jobURL_witness :
    JobURL "periodic" (some "1644212601231576276") (some "periodic-ci-openshift-osde2e") =
      ("https://prow.ci.openshift.org/view/gs/origin-ci-test/logs/" ++
         "periodic-ci-openshift-osde2e" ++ "/" ++ "1644212601231576276", true) :=
  (c10_jobURL "periodic" (some "1644212601231576276")
    (some "periodic-ci-openshift-osde2e")).2.2 "1644212601231576276"
    "periodic-ci-openshift-osde2e"
